import Mathlib

/-!
Verification of the backstage-plugins repository's natural-language specification
against the source.

Two subsystems are embedded:

* the notifications backend handlers (`createNotification`, `getNotifications`,
  `getNotificationsCount` and `addFilter`, from the handlers source file);
* the workflow input-schema resolution route
  (`GET /workflows/:workflowId/inputSchema` in
  `plugins/orchestrator-backend/src/service/router.ts`), together with the
  merge of primary and assessment instance data it performs inline.

The `DataInputSchemaService` methods `parseComposition` and
`extractInitialStateFromWorkflowData` are called by the route but their source
is not part of the repository snapshot; they are modelled from the
specification (see their doc comments).
-/

/-! ## Notifications backend: data model (handlers source file) -/

/-- A row of the `messages` table as selected by the handlers. -/
structure Message where
  id : String
  created : Int
  origin : String
  title : String
  message : Option String
  topic : Option String
deriving DecidableEq, Repr

/-- The `NotificationsFilter` consumed by `addFilter`: `containsText` and
`createdAfter` are the only fields the handlers source reads.  `none` models a
JS `undefined` field; timestamps are modelled as integers. -/
structure NotificationsFilter where
  containsText : Option String
  createdAfter : Option Int
deriving DecidableEq, Repr

/-- The `Notification` object built by `getNotifications` (fields assigned at
lines 82-90 of the handlers source). -/
structure Notification where
  id : String
  created : Int
  readByUser : Bool
  origin : String
  title : String
  message : Option String
  topic : Option String
deriving DecidableEq, Repr

/-- Whether a character list starts with a given pattern. -/
def charsStartWith : List Char → List Char → Bool
  | _, [] => true
  | [], _ :: _ => false
  | c :: cs, p :: ps => c == p && charsStartWith cs ps

/-- Whether a character list contains a given pattern as a contiguous run. -/
def charsContain (l pat : List Char) : Bool :=
  match l with
  | [] => charsStartWith [] pat
  | _ :: rest => charsStartWith l pat || charsContain rest pat

/-- Case-insensitive substring test, modelling SQL `ILIKE '%text%'`. -/
def containsTextMatch (text pat : String) : Bool :=
  charsContain text.toLower.toList pat.toLower.toList

/-- The predicate applied by `addFilter`: a `whereILike` on title or message when
`filter.containsText` is truthy (JS: a non-empty string), and a
`created > createdAfter` condition when `filter.createdAfter` is truthy.
An absent `message` column never matches an ILIKE pattern. -/
def addFilterPred (f : NotificationsFilter) (m : Message) : Bool :=
  (match f.containsText with
   | none => true
   | some t =>
     if t = "" then true
     else containsTextMatch m.title t || containsTextMatch (m.message.getD "") t)
  && (match f.createdAfter with
   | none => true
   | some c => decide (c < m.created))

/-- The mapping from a selected message row to the returned notification
(handlers source, lines 81-92): `readByUser` is assigned the literal `false`. -/
def messageToNotification (m : Message) : Notification :=
  { id := m.id
  , created := m.created
  , readByUser := false
  , origin := m.origin
  , title := m.title
  , message := m.message
  , topic := m.topic }

/-- `getNotifications(dbClient, filter, pageSize, pageNumber)`: throws when
`pageSize < 0 || pageNumber < 0 || pageSize == 0 && pageNumber > 0 ||
pageSize > 0 && pageNumber == 0`; otherwise selects all messages matching the
filter and, when `pageNumber > 0`, applies
`limit(pageSize).offset((pageNumber-1)*pageSize)`.  The database is modelled as
the ordered list of rows the `messages` query would return. -/
def getNotifications (db : List Message) (f : NotificationsFilter)
    (pageSize pageNumber : Int) : Except String (List Notification) :=
  if pageSize < 0 ∨ pageNumber < 0 ∨ (pageSize = 0 ∧ 0 < pageNumber)
      ∨ (0 < pageSize ∧ pageNumber = 0) then
    .error "pageSize and pageNumber must both be either 0 or greater than 0"
  else
    let filtered := db.filter (addFilterPred f)
    let paged :=
      if 0 < pageNumber then
        (filtered.drop ((pageNumber - 1) * pageSize).toNat).take pageSize.toNat
      else filtered
    .ok (paged.map messageToNotification)

/-- Whether an `Except` result is a success. -/
def exceptIsOk {α : Type} : Except String α → Bool
  | .ok _ => true
  | .error _ => false

/-! ## Notifications backend: createNotification -/

/-- The `CreateNotificationRequest` fields the handler reads.  `none` for
`targetGroups` / `targetUsers` models a request where the field is not an
array, in which case the corresponding catalog check is skipped. -/
structure CreateNotificationRequest where
  origin : String
  title : String
  message : Option String
  topic : Option String
  targetUsers : Option (List String)
  targetGroups : Option (List String)
deriving DecidableEq, Repr

/-- The `MessagesInsert` row built by `createNotification` (lines 39-44). -/
structure MessagesInsert where
  origin : String
  title : String
  message : Option String
  topic : Option String
deriving DecidableEq, Repr

/-- The `messages` table state: inserted rows (with their generated ids) and
the next id the database would assign. -/
structure MessagesDB where
  rows : List (Nat × MessagesInsert)
  nextId : Nat
deriving DecidableEq, Repr

/-- The row `createNotification` inserts for a given request. -/
def rowOf (req : CreateNotificationRequest) : MessagesInsert :=
  { origin := req.origin
  , title := req.title
  , message := req.message
  , topic := req.topic }

/-- The per-target catalog validation loop: for each target, the handler calls
`catalogClient.getEntityByRef(refHead + target)` and throws
`` `<kindWord> '<target>' does not exist` `` when the entity is absent.  The
catalog is modelled as the list of entity refs that exist. -/
def checkTargets (catalog : List String) (refHead kindWord : String)
    (targets : Option (List String)) : Except String Unit :=
  match targets with
  | none => .ok ()
  | some ts =>
    match ts.find? (fun t => !(catalog.contains (refHead ++ t))) with
    | some t => .error (kindWord ++ " '" ++ t ++ "' does not exist")
    | none => .ok ()

/-- `createNotification(dbClient, catalogClient, req)`: validates every entry of
`targetGroups` (refs `group:<g>`), then every entry of `targetUsers`
(refs `user:<u>`), against the catalog; only after both checks pass does it
insert one row into `messages` and return the generated id.  The pair returned
is the database state after the call together with the thrown error or the
returned `msgid`. -/
def createNotification (db : MessagesDB) (catalog : List String)
    (req : CreateNotificationRequest) : MessagesDB × Except String String :=
  match checkTargets catalog "group:" "group" req.targetGroups with
  | .error e => (db, .error e)
  | .ok _ =>
    match checkTargets catalog "user:" "user" req.targetUsers with
    | .error e => (db, .error e)
    | .ok _ =>
      ({ rows := db.rows ++ [(db.nextId, rowOf req)], nextId := db.nextId + 1 }
      , .ok (toString db.nextId))

/-! ## Orchestrator: input-schema resolution data model -/

/-- A JSON leaf value occurring in instance workflow data. -/
inductive JsonValue where
  | str (s : String)
  | num (n : Int)
  | bool (b : Bool)
  | null
deriving DecidableEq, Repr

/-- One JS object holding resolved field values for one schema fragment:
field name paired with its value, where `none` models a key that is present
but bound to JS `undefined`.  Keys are assumed distinct, as in a JS object. -/
abbrev FragmentValues := List (String × Option JsonValue)

/-- The object found under the well-known `WORKFLOW_DATA_KEY` of a process
instance's variables: field name to value, `none` modelling `undefined`. -/
abbrev WorkflowData := List (String × Option JsonValue)

/-- One step of a multi-part input form: an identifier and its field names in
declared order. -/
structure SchemaFragment where
  title : String
  fields : List String
deriving DecidableEq, Repr

/-- The workflow definition returned by `fetchWorkflowDefinition`; the route
only inspects `dataInputSchema` for truthiness, so its content is abstracted
to the schema reference string. -/
structure WorkflowDefinition where
  dataInputSchema : Option String
deriving DecidableEq, Repr

/-- The declared input schema document fetched from the running engine: either
a plain flat schema (its field names in declared order) or a composition of
named members, where a member with `none` lacks the minimal structural shape
(no field list / unresolvable reference). -/
inductive InputSchemaDefinition where
  | flat (fields : List String)
  | composed (members : List (String × Option (List String)))
deriving DecidableEq, Repr

/-- The result of `fetchWorkflowInfo`: runtime introspection, possibly without
an `inputSchema`. -/
structure WorkflowInfo where
  inputSchema : Option InputSchemaDefinition
deriving DecidableEq, Repr

/-- The result of `fetchProcessInstanceVariables`: `workflowData` is the value
found under `WORKFLOW_DATA_KEY`, absent when the key is missing. -/
structure InstanceVariables where
  workflowData : Option WorkflowData
deriving DecidableEq, Repr

/-- The outcome of one inputSchema resolution request: a 200 response, a
`res.status(500).send(...)` server error, or an exception thrown out of the
handler (caught by the express error handler). -/
structure ResolvedResponse where
  uri : String
  definition : WorkflowDefinition
  schemas : List SchemaFragment
  values : List FragmentValues
  readonlyKeys : List String
deriving DecidableEq, Repr

inductive RouteResult where
  | ok (r : ResolvedResponse)
  | serverError (msg : String)
  | thrown (msg : String)
deriving DecidableEq, Repr

/-- Whether a route outcome is a successful (200) response. -/
def RouteResult.isOk : RouteResult → Bool
  | .ok _ => true
  | _ => false

/-- The collaborator calls and pure pipeline steps the route can perform, in
the order they appear in the handler. -/
inductive Step where
  | getWorkflowDefinition
  | fetchWorkflowDefinition
  | fetchWorkflowUri
  | fetchWorkflowInfo
  | parse
  | fetchPrimaryVariables
  | extractPrimary
  | fetchAssessmentVariables
  | extractAssessment
  | merge
deriving DecidableEq, Repr

/-- The per-request environment: every collaborator's answer for this request.
`serviceUrl` is `getWorkflowDefinition(workflowId).serviceUrl`; `primaryVars`
(resp. `assessmentVars`) is what `fetchProcessInstanceVariables` would return
when called with `instanceId` (resp. `assessmentInstanceId`). -/
structure Env where
  workflowId : String
  serviceUrl : Option String
  definition : Option WorkflowDefinition
  uri : Option String
  workflowInfo : Option WorkflowInfo
  instanceId : Option String
  assessmentInstanceId : Option String
  primaryVars : Option InstanceVariables
  assessmentVars : Option InstanceVariables
deriving DecidableEq, Repr

/-! ## Orchestrator: pure pipeline components -/

/-- Lookup of a field in instance workflow data; the outer `Option` is key
presence, the inner one distinguishes a defined value from `undefined`. -/
def lookupField (wd : WorkflowData) (f : String) : Option (Option JsonValue) :=
  (wd.find? (fun kv => kv.1 == f)).map Prod.snd

/-- `Object.keys(item).filter(key => item[key] !== undefined)` for one
fragment's value object (router.ts line 503). -/
def definedKeys (item : FragmentValues) : List String :=
  (item.filter (fun kv => kv.2.isSome)).map Prod.fst

/-- Modelled from the spec: `DataInputSchemaService.parseComposition` is not
under `src/` (only its call site in `router.ts` is).  Spec §4.1: a plain
schema yields a single fragment with all its fields in declared order; a
composition yields one fragment per member in declaration order; a member
lacking the minimal structural shape raises a `SchemaError` naming it, which
propagates out of the handler. -/
def parseComposition : InputSchemaDefinition → Except String (List SchemaFragment)
  | .flat fields => .ok [{ title := "", fields := fields }]
  | .composed members =>
    members.mapM (fun m =>
      match m.2 with
      | some fields => .ok { title := m.1, fields := fields }
      | none => .error ("SchemaError: " ++ m.1))

/-- Modelled from the spec:
`DataInputSchemaService.extractInitialStateFromWorkflowData` is not under
`src/` (only its call sites in `router.ts` are).  Spec §4.2: for each fragment,
for each of its field names in order, look up the value in the instance data
and include the field only when the value is present and not the undefined
sentinel; the result has one `FragmentValues` per fragment, in the same
order. -/
def extractInitialStateFromWorkflowData (workflowData : WorkflowData)
    (schemas : List SchemaFragment) : List FragmentValues :=
  schemas.map (fun frag =>
    frag.fields.filterMap (fun f =>
      match lookupField workflowData f with
      | some (some v) => some (f, some v)
      | _ => none))

/-- The outcome of the merge of primary and assessment initial states. -/
structure MergeResult where
  values : List FragmentValues
  readonlyKeys : List String
deriving DecidableEq, Repr

/-- The merge step inlined in router.ts lines 471-511: `initialState` is the
primary extraction result (`[]` when no primary workflow data was present);
when assessment workflow data is present, the primary state is replaced by the
assessment state only when `initialState.length === 0`, and `readonlyKeys` is
recomputed from the assessment state unconditionally as the defined keys of
every assessment fragment, flattened. -/
def mergeStep (initialState : List FragmentValues)
    (assessState : Option (List FragmentValues)) : MergeResult :=
  match assessState with
  | none => { values := initialState, readonlyKeys := [] }
  | some a =>
    { values := if initialState.length == 0 then a else initialState
    , readonlyKeys := (a.map definedKeys).flatten }

/-! ## Orchestrator: the inputSchema route -/

/-- The `GET /workflows/:workflowId/inputSchema` handler (router.ts lines
393-514), instrumented with the ordered list of collaborator calls and
pipeline steps performed.  Mirrors the source control flow: missing
`serviceUrl` throws; missing definition, uri, workflow info or runtime input
schema each answer 500; a missing declared `dataInputSchema` answers 200 with
empty schemas and initial state before any further call; otherwise the schema
is parsed, per-role instance variables are fetched only when the corresponding
query parameter is present, each role's workflow data is extracted only when
present, and the results are merged. -/
def resolveInputSchemaT (env : Env) : RouteResult × List Step :=
  match env.serviceUrl with
  | none =>
    (.thrown ("ServiceUrl is not defined for workflow " ++ env.workflowId)
    , [.getWorkflowDefinition])
  | some _ =>
    match env.definition with
    | none =>
      (.serverError ("Couldn't fetch workflow definition " ++ env.workflowId)
      , [.getWorkflowDefinition, .fetchWorkflowDefinition])
    | some definition =>
      match env.uri with
      | none =>
        (.serverError ("Couldn't fetch workflow uri " ++ env.workflowId)
        , [.getWorkflowDefinition, .fetchWorkflowDefinition, .fetchWorkflowUri])
      | some uri =>
        match definition.dataInputSchema with
        | none =>
          (.ok { uri := uri, definition := definition, schemas := []
               , values := [], readonlyKeys := [] }
          , [.getWorkflowDefinition, .fetchWorkflowDefinition, .fetchWorkflowUri])
        | some _ =>
          match env.workflowInfo with
          | none =>
            (.serverError ("Couldn't fetch workflow info " ++ env.workflowId)
            , [.getWorkflowDefinition, .fetchWorkflowDefinition
              , .fetchWorkflowUri, .fetchWorkflowInfo])
          | some info =>
            match info.inputSchema with
            | none =>
              (.serverError ("Couldn't fetch workflow input schema "
                  ++ env.workflowId)
              , [.getWorkflowDefinition, .fetchWorkflowDefinition
                , .fetchWorkflowUri, .fetchWorkflowInfo])
            | some schemaDef =>
              match parseComposition schemaDef with
              | .error e =>
                (.thrown e
                , [.getWorkflowDefinition, .fetchWorkflowDefinition
                  , .fetchWorkflowUri, .fetchWorkflowInfo, .parse])
              | .ok schemas =>
                let instanceVariables :=
                  match env.instanceId with
                  | some _ => env.primaryVars
                  | none => none
                let primaryTrace :=
                  match env.instanceId with
                  | some _ => [Step.fetchPrimaryVariables]
                  | none => []
                let instanceWorkflowData :=
                  instanceVariables.bind InstanceVariables.workflowData
                let initialState :=
                  match instanceWorkflowData with
                  | some wd => extractInitialStateFromWorkflowData wd schemas
                  | none => []
                let extractPrimaryTrace :=
                  match instanceWorkflowData with
                  | some _ => [Step.extractPrimary]
                  | none => []
                let assessmentVariables :=
                  match env.assessmentInstanceId with
                  | some _ => env.assessmentVars
                  | none => none
                let assessTrace :=
                  match env.assessmentInstanceId with
                  | some _ => [Step.fetchAssessmentVariables]
                  | none => []
                let assessmentWorkflowData :=
                  assessmentVariables.bind InstanceVariables.workflowData
                let assessState :=
                  match assessmentWorkflowData with
                  | some wd => some (extractInitialStateFromWorkflowData wd schemas)
                  | none => none
                let extractAssessTrace :=
                  match assessmentWorkflowData with
                  | some _ => [Step.extractAssessment]
                  | none => []
                let merged := mergeStep initialState assessState
                (.ok { uri := uri, definition := definition, schemas := schemas
                     , values := merged.values
                     , readonlyKeys := merged.readonlyKeys }
                , [.getWorkflowDefinition, .fetchWorkflowDefinition
                  , .fetchWorkflowUri, .fetchWorkflowInfo, .parse]
                  ++ primaryTrace ++ extractPrimaryTrace
                  ++ assessTrace ++ extractAssessTrace ++ [.merge])

/-- `values` of a successful response, `none` on failure. -/
def okValues : RouteResult → Option (List FragmentValues)
  | .ok r => some r.values
  | _ => none

/-- `readonlyKeys` of a successful response, `none` on failure. -/
def okReadonlyKeys : RouteResult → Option (List String)
  | .ok r => some r.readonlyKeys
  | _ => none

/-- `(values.length, schemas.length)` of a successful response. -/
def okLengths : RouteResult → Option (Nat × Nat)
  | .ok r => some (r.values.length, r.schemas.length)
  | _ => none

/-- Environment constructor with positional fields, used to state theorems
over families of environments of a given shape. -/
def mkEnv (wid : String) (su : Option String) (d : Option WorkflowDefinition)
    (uriO : Option String) (wi : Option WorkflowInfo) (iid aid : Option String)
    (pv av : Option InstanceVariables) : Env :=
  { workflowId := wid, serviceUrl := su, definition := d, uri := uriO
  , workflowInfo := wi, instanceId := iid, assessmentInstanceId := aid
  , primaryVars := pv, assessmentVars := av }

/-! ## Concrete environments used as counterexamples and witnesses -/

/-- Two-fragment schema from the spec's own scenario:
`personal: [name, age]`, `contact: [email]`. -/
def twoFragmentSchema : InputSchemaDefinition :=
  .composed [("personal", some ["name", "age"]), ("contact", some ["email"])]

/-- Assessment workflow data for the spec scenario: `name`, `age`, `email`
all defined. -/
def assessmentScenarioData : WorkflowData :=
  [("name", some (.str "Ann")), ("age", some (.num 30)), ("email", some (.str "a@x.com"))]

/-- Environment for the spec scenario: primary instance knows `name`,
assessment instance knows `name`, `age` and `email`. -/
def envPrimaryAndAssessment : Env :=
  { workflowId := "wf1"
  , serviceUrl := some "http://svc"
  , definition := some { dataInputSchema := some "schemaRef" }
  , uri := some "wf1.sw.json"
  , workflowInfo := some { inputSchema := some twoFragmentSchema }
  , instanceId := some "i1"
  , assessmentInstanceId := some "i2"
  , primaryVars := some { workflowData := some [("name", some (.str "Ann"))] }
  , assessmentVars := some { workflowData := some assessmentScenarioData } }

/-- Environment whose primary instance data is present but resolves no schema
field (every primary fragment empty), while the assessment defines `age`. -/
def envEmptyFragmentsPrimary : Env :=
  { envPrimaryAndAssessment with
    primaryVars := some { workflowData := some [("other", some (.num 1))] }
  , assessmentVars := some { workflowData := some [("age", some (.num 30))] } }

/-- Environment that reaches the parse step with no instance variables
available for either role. -/
def envNoInstanceData : Env :=
  { workflowId := "wf1"
  , serviceUrl := some "http://svc"
  , definition := some { dataInputSchema := some "schemaRef" }
  , uri := some "wf1.sw.json"
  , workflowInfo := some { inputSchema := some (.flat ["name"]) }
  , instanceId := none
  , assessmentInstanceId := none
  , primaryVars := none
  , assessmentVars := none }

/-- Environment whose runtime introspection succeeds but reports no
`inputSchema`. -/
def envNoRuntimeSchema : Env :=
  { workflowId := "wf1"
  , serviceUrl := some "http://svc"
  , definition := some { dataInputSchema := some "schemaRef" }
  , uri := some "wf1.sw.json"
  , workflowInfo := some { inputSchema := none }
  , instanceId := none
  , assessmentInstanceId := none
  , primaryVars := none
  , assessmentVars := none }

/-- A message row used in notification witnesses. -/
def demoMessage : Message :=
  { id := "m1", created := 5, origin := "orchestrator", title := "hello"
  , message := some "body", topic := none }

/-- An all-absent filter used in notification witnesses. -/
def demoFilter : NotificationsFilter :=
  { containsText := none, createdAfter := none }

/-- A request used in the createNotification witness. -/
def demoRequest : CreateNotificationRequest :=
  { origin := "o", title := "t", message := none, topic := none
  , targetUsers := some ["alice"], targetGroups := none }

/-- An empty messages table used in notification witnesses. -/
def demoDB : MessagesDB := { rows := [], nextId := 1 }


/-! ## Helper lemmas -/

theorem pagingGuard_iff (ps pn : Int) :
    (ps < 0 ∨ pn < 0 ∨ (ps = 0 ∧ 0 < pn) ∨ (0 < ps ∧ pn = 0))
      ↔ (ps < 0 ∨ pn < 0 ∨ (ps = 0 ∧ pn ≠ 0) ∨ (ps ≠ 0 ∧ pn = 0)) := by
  constructor <;>
    (intro h; rcases h with h | h | ⟨h1, h2⟩ | ⟨h1, h2⟩ <;> omega)

theorem checkTargets_ok_iff (catalog : List String) (rh kw : String)
    (ts : Option (List String)) :
    exceptIsOk (checkTargets catalog rh kw ts) = true
      ↔ ∀ t ∈ ts.getD [], (rh ++ t) ∈ catalog := by
  cases ts with
  | none => simp [checkTargets, exceptIsOk]
  | some l =>
    simp only [checkTargets, Option.getD_some]
    cases hf : l.find? (fun t => !(catalog.contains (rh ++ t))) with
    | none =>
      simp only [exceptIsOk, true_iff]
      intro t ht
      have h := List.find?_eq_none.mp hf t ht
      simpa using h
    | some t =>
      simp only [exceptIsOk, Bool.false_eq_true, false_iff]
      intro hall
      have h1 := List.find?_some hf
      have h2 := hall t (List.mem_of_find?_eq_some hf)
      simp [h2] at h1

theorem checkTargets_error_iff (catalog : List String) (rh kw : String)
    (ts : Option (List String)) :
    exceptIsOk (checkTargets catalog rh kw ts) = false
      ↔ ∃ t ∈ ts.getD [], (rh ++ t) ∉ catalog := by
  rw [Bool.eq_false_iff, Ne, checkTargets_ok_iff]
  push_neg
  rfl

/-! ## Claims about the notifications backend -/

/-- Claim C8: `getNotifications` raises an error if and only if
`pageSize < 0`, or `pageNumber < 0`, or exactly one of `pageSize` and
`pageNumber` is zero; when both are zero it returns all matching messages with
no limit or offset applied, and when both are positive it applies limit
`pageSize` and offset `(pageNumber-1)*pageSize`. -/
theorem getNotifications_pagination_spec (db : List Message)
    (f : NotificationsFilter) (ps pn : Int) :
    (exceptIsOk (getNotifications db f ps pn) = false
       ↔ ps < 0 ∨ pn < 0 ∨ (ps = 0 ∧ pn ≠ 0) ∨ (ps ≠ 0 ∧ pn = 0))
    ∧ (ps = 0 → pn = 0 →
        getNotifications db f ps pn
          = .ok ((db.filter (addFilterPred f)).map messageToNotification))
    ∧ (0 < ps → 0 < pn →
        getNotifications db f ps pn
          = .ok ((((db.filter (addFilterPred f)).drop
              ((pn - 1) * ps).toNat).take ps.toNat).map messageToNotification)) := by
  by_cases h : ps < 0 ∨ pn < 0 ∨ (ps = 0 ∧ 0 < pn) ∨ (0 < ps ∧ pn = 0)
  · refine ⟨?_, ?_, ?_⟩
    · simp only [getNotifications, if_pos h, exceptIsOk, true_iff]
      exact (pagingGuard_iff ps pn).mp h
    · intro h1 h2
      exfalso
      rcases h with h | h | ⟨h3, h4⟩ | ⟨h3, h4⟩ <;> omega
    · intro h1 h2
      exfalso
      rcases h with h | h | ⟨h3, h4⟩ | ⟨h3, h4⟩ <;> omega
  · refine ⟨?_, ?_, ?_⟩
    · simp only [getNotifications, if_neg h, exceptIsOk, Bool.true_eq_false,
        false_iff]
      exact fun hc => h ((pagingGuard_iff ps pn).mpr hc)
    · intro h1 h2
      subst h1
      subst h2
      simp [getNotifications, if_neg h]
    · intro h1 h2
      simp only [getNotifications, if_neg h, if_pos h2]

/-- Claim C10: every notification returned by `getNotifications` has
`readByUser` equal to `false`, whatever the stored rows contain. -/
theorem getNotifications_readByUser_false (db : List Message)
    (f : NotificationsFilter) (ps pn : Int) (out : List Notification)
    (h : getNotifications db f ps pn = .ok out) :
    ∀ n ∈ out, n.readByUser = false := by
  simp only [getNotifications] at h
  split at h
  · exact absurd h (by simp)
  · injection h with h
    subst h
    intro n hn
    obtain ⟨m, _, rfl⟩ := List.mem_map.mp hn
    rfl

/-- Witness for C10: the claim theorem applied at a concrete store, filter and
page pair. -/
theorem getNotifications_readByUser_false_witness :
    (messageToNotification demoMessage).readByUser = false :=
  getNotifications_readByUser_false [demoMessage] demoFilter 0 0
    [messageToNotification demoMessage] rfl
    (messageToNotification demoMessage) (by simp)

/-- Claim C9: `createNotification` validates every entry of `targetGroups` and
`targetUsers` against the catalog before touching the database: it errors
exactly when some referenced group or user entity is missing, the store is
unchanged on error, and otherwise exactly one row is inserted and its id
returned. -/
theorem createNotification_catalog_validation (db : MessagesDB)
    (catalog : List String) (req : CreateNotificationRequest) :
    (exceptIsOk (createNotification db catalog req).2 = false
      ↔ (∃ g ∈ req.targetGroups.getD [], ("group:" ++ g) ∉ catalog)
        ∨ (∃ u ∈ req.targetUsers.getD [], ("user:" ++ u) ∉ catalog))
    ∧ (exceptIsOk (createNotification db catalog req).2 = false →
        (createNotification db catalog req).1 = db)
    ∧ (exceptIsOk (createNotification db catalog req).2 = true →
        (createNotification db catalog req).1.rows
            = db.rows ++ [(db.nextId, rowOf req)]
          ∧ (createNotification db catalog req).2 = .ok (toString db.nextId)) := by
  cases hg : checkTargets catalog "group:" "group" req.targetGroups with
  | error e =>
    have hgf : exceptIsOk (checkTargets catalog "group:" "group" req.targetGroups)
        = false := by
      rw [hg]
      rfl
    refine ⟨?_, ?_, ?_⟩
    · simp only [createNotification, hg, exceptIsOk, true_iff]
      exact Or.inl ((checkTargets_error_iff catalog "group:" "group"
        req.targetGroups).mp hgf)
    · intro _
      simp [createNotification, hg]
    · intro hcontra
      rw [createNotification, hg] at hcontra
      exact absurd hcontra (by simp [exceptIsOk])
  | ok u =>
    have hgt : exceptIsOk (checkTargets catalog "group:" "group" req.targetGroups)
        = true := by
      rw [hg]
      rfl
    cases hu : checkTargets catalog "user:" "user" req.targetUsers with
    | error e =>
      have huf : exceptIsOk (checkTargets catalog "user:" "user" req.targetUsers)
          = false := by
        rw [hu]
        rfl
      refine ⟨?_, ?_, ?_⟩
      · simp only [createNotification, hg, hu, exceptIsOk, true_iff]
        exact Or.inr ((checkTargets_error_iff catalog "user:" "user"
          req.targetUsers).mp huf)
      · intro _
        simp [createNotification, hg, hu]
      · intro hcontra
        rw [createNotification, hg, hu] at hcontra
        exact absurd hcontra (by simp [exceptIsOk])
    | ok v =>
      have hut : exceptIsOk (checkTargets catalog "user:" "user" req.targetUsers)
          = true := by
        rw [hu]
        rfl
      refine ⟨?_, ?_, ?_⟩
      · simp only [createNotification, hg, hu, exceptIsOk]
        constructor
        · intro hcontra
          exact absurd hcontra (by simp)
        · rintro (⟨g, hgm, hgc⟩ | ⟨u', hum, huc⟩)
          · exact absurd ((checkTargets_ok_iff catalog "group:" "group"
              req.targetGroups).mp hgt g hgm) hgc
          · exact absurd ((checkTargets_ok_iff catalog "user:" "user"
              req.targetUsers).mp hut u' hum) huc
      · intro hcontra
        rw [createNotification, hg, hu] at hcontra
        exact absurd hcontra (by simp [exceptIsOk])
      · intro _
        rw [createNotification, hg, hu]
        exact ⟨rfl, rfl⟩

/-- Witness for C9: the claim theorem applied at a concrete store, catalog and
request; the request references the user `alice`, present in the catalog, so
the call succeeds and inserts one row. -/
theorem createNotification_catalog_validation_witness :
    (createNotification demoDB ["user:alice"] demoRequest).1.rows
        = demoDB.rows ++ [(demoDB.nextId, rowOf demoRequest)]
      ∧ (createNotification demoDB ["user:alice"] demoRequest).2
        = .ok (toString demoDB.nextId) :=
  (createNotification_catalog_validation demoDB ["user:alice"] demoRequest).2.2
    rfl

/-! ## Claims about the orchestrator input-schema resolution -/

theorem extract_length (wd : WorkflowData) (schemas : List SchemaFragment) :
    (extractInitialStateFromWorkflowData wd schemas).length = schemas.length := by
  simp [extractInitialStateFromWorkflowData]

/-- Counterexample to claim C1: in the spec's own scenario (primary knows
`name`, so has a non-empty fragment), the route keeps the primary values but
still computes a non-empty `readonlyKeys` from the assessment. -/
theorem resolve_readonlyKeys_with_primary_cx :
    okValues (resolveInputSchemaT envPrimaryAndAssessment).1
        = some [[("name", some (JsonValue.str "Ann"))], []]
    ∧ okReadonlyKeys (resolveInputSchemaT envPrimaryAndAssessment).1
        = some ["name", "age", "email"]
    ∧ (["name", "age", "email"] : List String) ≠ [] :=
  ⟨rfl, rfl, by decide⟩

/-- Claim C1 (amended): for every primary initial state with at least one
non-empty fragment — written as `p1 ++ ((k, v) :: rest) :: p2` — and every
present assessment initial state, the merge keeps the primary values, but
`readonlyKeys` is not empty in general: it is recomputed from the assessment
as the defined keys of all assessment fragments, and it is `[]` whenever the
assessment is absent. -/
theorem mergeStep_primary_precedence (p1 p2 : List FragmentValues)
    (k : String) (v : Option JsonValue) (rest : FragmentValues)
    (assessment : List FragmentValues) :
    (mergeStep (p1 ++ ((k, v) :: rest) :: p2) (some assessment)).values
        = p1 ++ ((k, v) :: rest) :: p2
    ∧ (mergeStep (p1 ++ ((k, v) :: rest) :: p2) (some assessment)).readonlyKeys
        = (assessment.map definedKeys).flatten
    ∧ (mergeStep (p1 ++ ((k, v) :: rest) :: p2) none).readonlyKeys = [] := by
  have hlen : ((p1 ++ ((k, v) :: rest) :: p2).length == 0) = false := by
    simp [List.length_append]
  refine ⟨?_, rfl, rfl⟩
  simp [mergeStep, hlen]

/-- Counterexample to claim C2: a resolution that reaches the parse step with
one schema fragment but no instance variables for either role answers with an
empty `values` list, not with one empty mapping per fragment. -/
theorem resolve_values_shorter_than_schemas_cx :
    okLengths (resolveInputSchemaT envNoInstanceData).1 = some (0, 1)
    ∧ (0 : Nat) ≠ 1 :=
  ⟨rfl, by decide⟩

/-- Claim C2 (amended): on the full resolution path, `values` has exactly one
entry per parsed fragment whenever primary or assessment workflow data is
present, but collapses to `[]` when neither role has workflow data. -/
theorem resolve_values_length_amended (wid u dis uriStr iStr aStr : String)
    (schemaDef : InputSchemaDefinition) (schemas : List SchemaFragment)
    (pOpt aOpt : Option WorkflowData)
    (hp : parseComposition schemaDef = .ok schemas) :
    okLengths (resolveInputSchemaT (mkEnv wid (some u)
        (some { dataInputSchema := some dis }) (some uriStr)
        (some { inputSchema := some schemaDef })
        (some iStr) (some aStr)
        (some { workflowData := pOpt }) (some { workflowData := aOpt }))).1
      = some ((if pOpt.isSome || aOpt.isSome then schemas.length else 0)
             , schemas.length) := by
  cases pOpt with
  | none =>
    cases aOpt with
    | none =>
      simp [resolveInputSchemaT, mkEnv, hp, mergeStep, okLengths]
    | some awd =>
      simp [resolveInputSchemaT, mkEnv, hp, mergeStep, okLengths, extract_length]
  | some wd =>
    cases aOpt with
    | none =>
      simp [resolveInputSchemaT, mkEnv, hp, mergeStep, okLengths, extract_length]
    | some awd =>
      by_cases hs : schemas = []
      · subst hs
        simp [resolveInputSchemaT, mkEnv, hp, mergeStep, okLengths,
          extractInitialStateFromWorkflowData]
      · simp [resolveInputSchemaT, mkEnv, hp, mergeStep, okLengths,
          extract_length, hs]

/-- Witness for the amended C2: the theorem applied at a flat one-field schema
with primary data present and assessment data absent. -/
theorem resolve_values_length_amended_witness :
    okLengths (resolveInputSchemaT (mkEnv "wf1" (some "http://svc")
        (some { dataInputSchema := some "schemaRef" }) (some "wf1.sw.json")
        (some { inputSchema := some (.flat ["name"]) })
        (some "i1") (some "i2")
        (some { workflowData := some [("name", some (.str "Ann"))] })
        (some { workflowData := none }))).1
      = some (1, 1) := by
  have h := resolve_values_length_amended "wf1" "http://svc" "schemaRef"
    "wf1.sw.json" "i1" "i2" (.flat ["name"]) [{ title := "", fields := ["name"] }]
    (some [("name", some (.str "Ann"))]) none rfl
  simpa using h

/-- Counterexample to claim C3: with a primary whose every fragment is empty
(but present, so the fragment list is non-empty) and an assessment that
defines `age`, the route does not fall back to the assessment values. -/
theorem mergeStep_no_fallback_all_empty_fragments_cx :
    okValues (resolveInputSchemaT envEmptyFragmentsPrimary).1 = some [[], []]
    ∧ okReadonlyKeys (resolveInputSchemaT envEmptyFragmentsPrimary).1
        = some ["age"]
    ∧ ([[], []] : List FragmentValues) ≠ [[("age", some (JsonValue.num 30))], []] :=
  ⟨rfl, rfl, by decide⟩

/-- Claim C3 (amended): the assessment fallback is keyed on the primary
initial state being the empty list (as produced when no primary workflow data
is available), not on every fragment being empty: in that case the merge
returns the assessment as `values`, and a key is readonly exactly when it has
a defined value in some assessment fragment. -/
theorem mergeStep_fallback_on_empty_list (assessment : List FragmentValues)
    (k : String) :
    (mergeStep [] (some assessment)).values = assessment
    ∧ ((k ∈ (mergeStep [] (some assessment)).readonlyKeys)
        ↔ ∃ frag ∈ assessment, ∃ v, (k, some v) ∈ frag) := by
  refine ⟨rfl, ?_⟩
  simp only [mergeStep]
  rw [List.mem_flatten]
  constructor
  · rintro ⟨keys, hkeys, hk⟩
    obtain ⟨frag, hfrag, rfl⟩ := List.mem_map.mp hkeys
    simp only [definedKeys] at hk
    obtain ⟨kv, hkv, rfl⟩ := List.mem_map.mp hk
    have h2 := List.mem_filter.mp hkv
    obtain ⟨v, hv⟩ := Option.isSome_iff_exists.mp h2.2
    refine ⟨frag, hfrag, v, ?_⟩
    rw [← hv]
    exact h2.1
  · rintro ⟨frag, hfrag, v, hv⟩
    refine ⟨definedKeys frag, List.mem_map_of_mem _ hfrag, ?_⟩
    simp only [definedKeys]
    exact List.mem_map.mpr ⟨(k, some v), List.mem_filter.mpr ⟨hv, rfl⟩, rfl⟩

/-- Counterexample to claim C4: when runtime introspection succeeds but
reports no `inputSchema`, the route fails the request with a 500. -/
theorem resolve_missing_runtime_schema_fails_cx :
    (resolveInputSchemaT envNoRuntimeSchema).1
        = .serverError "Couldn't fetch workflow input schema wf1"
    ∧ ((resolveInputSchemaT envNoRuntimeSchema).1).isOk = false :=
  ⟨rfl, rfl⟩

/-- Claim C4 (amended): for every resolution in which the workflow declares an
input schema but the runtime introspection result lacks `inputSchema`, the
request fails with a server error naming the workflow — absence of the
runtime `inputSchema` is an error, not a valid outcome. -/
theorem resolve_missing_runtime_schema_fails (wid u dis uriStr : String)
    (iid aid : Option String) (pv av : Option InstanceVariables) :
    (resolveInputSchemaT (mkEnv wid (some u)
        (some { dataInputSchema := some dis }) (some uriStr)
        (some { inputSchema := none }) iid aid pv av)).1
      = .serverError ("Couldn't fetch workflow input schema " ++ wid) :=
  rfl

/-- Claim C5: a workflow whose definition declares no input schema answers 200
immediately with empty `schemas` and `initialState = {values: [], readonlyKeys:
[]}`, and the trace stops after the three definition lookups: no parse,
extract or merge step is performed. -/
theorem resolve_no_declared_schema_early_return (wid u uriStr : String)
    (wi : Option WorkflowInfo) (iid aid : Option String)
    (pv av : Option InstanceVariables) :
    resolveInputSchemaT (mkEnv wid (some u) (some { dataInputSchema := none })
        (some uriStr) wi iid aid pv av)
      = (.ok { uri := uriStr, definition := { dataInputSchema := none }
             , schemas := [], values := [], readonlyKeys := [] }
        , [.getWorkflowDefinition, .fetchWorkflowDefinition, .fetchWorkflowUri])
    ∧ (resolveInputSchemaT (mkEnv wid (some u) (some { dataInputSchema := none })
        (some uriStr) wi iid aid pv av)).2.contains .parse = false
    ∧ (resolveInputSchemaT (mkEnv wid (some u) (some { dataInputSchema := none })
        (some uriStr) wi iid aid pv av)).2.contains .extractPrimary = false
    ∧ (resolveInputSchemaT (mkEnv wid (some u) (some { dataInputSchema := none })
        (some uriStr) wi iid aid pv av)).2.contains .merge = false :=
  ⟨rfl, rfl, rfl, rfl⟩

/-- Claim C6: on the full resolution path, the request never fails once the
schema parses, whatever the two instance-variable lookups return; moreover,
when the primary lookup is absent (no variables at all, or no data under the
workflow-data key) the pipeline proceeds with empty primary state, so the
returned values are the assessment extraction or empty; and when the
assessment lookup is absent (either flavor) the returned values are the
primary extraction or empty, with no readonly keys. -/
theorem resolve_absent_instance_data_degrades (wid u dis uriStr iStr aStr : String)
    (schemaDef : InputSchemaDefinition) (schemas : List SchemaFragment)
    (pv av : Option InstanceVariables)
    (hp : parseComposition schemaDef = .ok schemas) :
    ((resolveInputSchemaT (mkEnv wid (some u)
        (some { dataInputSchema := some dis }) (some uriStr)
        (some { inputSchema := some schemaDef })
        (some iStr) (some aStr) pv av)).1).isOk = true
    ∧ (pv.bind InstanceVariables.workflowData = none →
        okValues (resolveInputSchemaT (mkEnv wid (some u)
            (some { dataInputSchema := some dis }) (some uriStr)
            (some { inputSchema := some schemaDef })
            (some iStr) (some aStr) pv av)).1
          = some (match av.bind InstanceVariables.workflowData with
              | some awd => extractInitialStateFromWorkflowData awd schemas
              | none => []))
    ∧ (av.bind InstanceVariables.workflowData = none →
        okValues (resolveInputSchemaT (mkEnv wid (some u)
            (some { dataInputSchema := some dis }) (some uriStr)
            (some { inputSchema := some schemaDef })
            (some iStr) (some aStr) pv av)).1
          = some (match pv.bind InstanceVariables.workflowData with
              | some wd => extractInitialStateFromWorkflowData wd schemas
              | none => [])
        ∧ okReadonlyKeys (resolveInputSchemaT (mkEnv wid (some u)
            (some { dataInputSchema := some dis }) (some uriStr)
            (some { inputSchema := some schemaDef })
            (some iStr) (some aStr) pv av)).1
          = some []) := by
  rcases pv with _ | ⟨_ | wd⟩ <;> rcases av with _ | ⟨_ | awd⟩ <;>
    simp [resolveInputSchemaT, mkEnv, hp, mergeStep, RouteResult.isOk,
      okValues, okReadonlyKeys]

/-- Witness for C6: the claim theorem applied at a flat one-field schema with
primary data present and the assessment lookup returning variables with no
workflow-data key: the request succeeds, the values are the primary
extraction, and no key is readonly. -/
theorem resolve_absent_instance_data_degrades_witness :
    ((resolveInputSchemaT (mkEnv "wf1" (some "http://svc")
        (some { dataInputSchema := some "schemaRef" }) (some "wf1.sw.json")
        (some { inputSchema := some (.flat ["name"]) })
        (some "i1") (some "i2")
        (some { workflowData := some [("name", some (.str "Ann"))] })
        (some { workflowData := none }))).1).isOk = true
    ∧ okValues (resolveInputSchemaT (mkEnv "wf1" (some "http://svc")
        (some { dataInputSchema := some "schemaRef" }) (some "wf1.sw.json")
        (some { inputSchema := some (.flat ["name"]) })
        (some "i1") (some "i2")
        (some { workflowData := some [("name", some (.str "Ann"))] })
        (some { workflowData := none }))).1
      = some [[("name", some (JsonValue.str "Ann"))]]
    ∧ okReadonlyKeys (resolveInputSchemaT (mkEnv "wf1" (some "http://svc")
        (some { dataInputSchema := some "schemaRef" }) (some "wf1.sw.json")
        (some { inputSchema := some (.flat ["name"]) })
        (some "i1") (some "i2")
        (some { workflowData := some [("name", some (.str "Ann"))] })
        (some { workflowData := none }))).1
      = some [] := by
  have h := resolve_absent_instance_data_degrades "wf1" "http://svc" "schemaRef"
    "wf1.sw.json" "i1" "i2" (.flat ["name"]) [{ title := "", fields := ["name"] }]
    (some { workflowData := some [("name", some (.str "Ann"))] })
    (some { workflowData := none }) rfl
  have h2 := h.2.2 rfl
  exact ⟨h.1, by simpa using h2.1, h2.2⟩

/-- Claim C7: a definition lookup reporting no service endpoint throws and
performs no further collaborator call; a missing workflow definition or a
missing uri each fail the request with a server error. -/
theorem resolve_definition_lookup_failures (wid u : String)
    (d : Option WorkflowDefinition) (d2 : WorkflowDefinition)
    (uriO : Option String) (wi : Option WorkflowInfo)
    (iid aid : Option String) (pv av : Option InstanceVariables) :
    resolveInputSchemaT (mkEnv wid none d uriO wi iid aid pv av)
      = (.thrown ("ServiceUrl is not defined for workflow " ++ wid)
        , [.getWorkflowDefinition])
    ∧ (resolveInputSchemaT (mkEnv wid (some u) none uriO wi iid aid pv av)).1
      = .serverError ("Couldn't fetch workflow definition " ++ wid)
    ∧ (resolveInputSchemaT (mkEnv wid (some u) (some d2) none wi iid aid pv av)).1
      = .serverError ("Couldn't fetch workflow uri " ++ wid) :=
  ⟨rfl, rfl, rfl⟩

/-- Witness for C8: the claim theorem applied at a concrete store with both
page parameters zero, returning all matching messages. -/
theorem getNotifications_pagination_spec_witness :
    getNotifications [demoMessage] demoFilter 0 0
      = .ok (([demoMessage].filter (addFilterPred demoFilter)).map
          messageToNotification) :=
  (getNotifications_pagination_spec [demoMessage] demoFilter 0 0).2.1 rfl rfl
